import Mathlib

/-!
Verification of the accounts-payable analytics logic of `contas_pagar.py`.

The dashboard loads a table of payable records and derives filtered views and
aggregates from it.  Each Python construct used by the analytics is embedded
as an executable Lean definition:

* a pandas row becomes a `Record`; a dataframe becomes a `List Record`;
* `NaT` / missing dates become `Option Date` with `none`;
* monetary floats become `ℚ`;
* a pandas monthly period (`dt.to_period('M')`) becomes an absolute month
  number `year * 12 + (month - 1) : Int`, which is equality- and
  order-compatible with pandas periods for calendar months;
* boolean-mask selection becomes `List.filter`;
* `groupby(...).sum()` (which drops null keys and sorts the group keys
  ascending) becomes `groupBySum`;
* `pd.merge(..., how='outer')` followed by `fillna(0)` and a sort on the key
  becomes `outerMergeFill`.
-/

/-- ASCII lowering of one character; embeds Python's `str.lower` for the
ASCII status literals (`aberto`, `quitado`, `ABERTO`, ...) used by the data. -/
def lowerChar (c : Char) : Char :=
  if 'A' ≤ c && c ≤ 'Z' then Char.ofNat (c.toNat + 32) else c

/-- Embeds `pandas.Series.str.lower` on a single cell. -/
def lowerStr (s : String) : String := String.mk (s.data.map lowerChar)

/-- A calendar date (a normalized pandas `Timestamp`, date-only). -/
structure Date where
  year : Int
  month : Nat
  day : Nat
deriving DecidableEq

/-- Timestamp comparison `a < b` for date-only timestamps: lexicographic on
(year, month, day), which is the calendar order for valid dates. -/
def Date.before (a b : Date) : Bool :=
  decide (a.year < b.year ∨ (a.year = b.year ∧
    (a.month < b.month ∨ (a.month = b.month ∧ a.day < b.day))))

/-- Embeds `Timestamp.dt.to_period('M')`: the absolute month number. -/
def Date.toPeriod (dt : Date) : Int := dt.year * 12 + ((dt.month : Int) - 1)

/-- Day number of a proleptic Gregorian date (days since 1970-01-01, negative
before); the standard civil-from-days inverse used to embed
`(timestamp_a - timestamp_b).dt.days`.  `/` and `%` on `Int` are Euclidean,
so for the positive divisors below they agree with floor division. -/
def Date.toDayNumber (dt : Date) : Int :=
  let y : Int := if dt.month ≤ 2 then dt.year - 1 else dt.year
  let m : Int := (dt.month : Int)
  let d : Int := (dt.day : Int)
  let era : Int := y / 400
  let yoe : Int := y - era * 400
  let mp : Int := (m + 9) % 12
  let doy : Int := (153 * mp + 2) / 5 + d - 1
  let doe : Int := yoe * 365 + yoe / 4 - yoe / 100 + doy
  era * 146097 + doe - 719468

/-- One row of the `contas_pagar.csv` table after `load_data_from_csv`
preprocessing: dates parsed with `errors='coerce'` (failures become `none`),
monetary columns numeric with failures coerced to 0, text columns filled. -/
structure Record where
  fornecedor : String
  numero_documento : String
  descricao_tipo_documento : String
  data_emissao : Option Date
  data_vencimento : Option Date
  data_quitacao : Option Date
  valor_documento : ℚ
  valor_desconto : ℚ
  valor_saldo : ℚ
  status_documento : String
deriving DecidableEq

/-- Embeds `df['status_documento'].str.lower() == 'aberto'`. -/
def isAberto (r : Record) : Bool := lowerStr r.status_documento == "aberto"

/-- Embeds `df['status_documento'].str.lower() == 'quitado'`. -/
def isQuitado (r : Record) : Bool := lowerStr r.status_documento == "quitado"

/-- The `MES_ANO_VENCIMENTO` auxiliary column (`NaT` maps to `none`). -/
def dueMonth (r : Record) : Option Int := r.data_vencimento.map Date.toPeriod

/-- The `MES_ANO_QUITACAO` auxiliary column (`NaT` maps to `none`). -/
def quitMonth (r : Record) : Option Int := r.data_quitacao.map Date.toPeriod

/-- Embeds `df['data_vencimento'].dt.year` (`NaT` maps to `none`). -/
def dueYear (r : Record) : Option Int := r.data_vencimento.map Date.year

/-- Embeds `df['data_quitacao'].dt.year` (`NaT` maps to `none`). -/
def quitYear (r : Record) : Option Int := r.data_quitacao.map Date.year

/-- The overdue condition of `df_vencidas_em_aberto` (source lines 249-252):
`status_documento.str.lower() == 'aberto'` AND
`data_vencimento < pd.to_datetime('today').normalize()`.  In pandas a `NaT`
due date compares `False` against any timestamp, embedded by the `none`
branch. -/
def is_overdue (today : Date) (r : Record) : Bool :=
  isAberto r &&
    (match r.data_vencimento with
      | some d => Date.before d today
      | none => false)

/-- The table of open overdue records (source lines 249-252). -/
def df_vencidas_em_aberto (today : Date) (df : List Record) : List Record :=
  df.filter (is_overdue today)

/-- `get_valor_total_contas_a_pagar` (source lines 89-91). -/
def get_valor_total_contas_a_pagar (df : List Record) : ℚ :=
  (df.map Record.valor_documento).sum

/-- `get_valor_total_contas_a_pagar_aberto` (source lines 93-96). -/
def get_valor_total_contas_a_pagar_aberto (df : List Record) : ℚ :=
  ((df.filter isAberto).map Record.valor_saldo).sum

/-- `valor_total_vencido` (source line 254). -/
def valor_total_vencido (today : Date) (df : List Record) : ℚ :=
  ((df_vencidas_em_aberto today df).map Record.valor_saldo).sum

/-- `valor_total_em_aberto` (source lines 258-260). -/
def valor_total_em_aberto (df : List Record) : ℚ :=
  ((df.filter isAberto).map Record.valor_saldo).sum

/-- `percentual_vencido` (source line 263): guarded percentage of overdue
balance over total open balance. -/
def percentual_vencido (today : Date) (df : List Record) : ℚ :=
  if 0 < valor_total_em_aberto df then
    valor_total_vencido today df / valor_total_em_aberto df * 100
  else 0

/-- `categorizar_prazo` (source lines 410-420): term-bucket categorization of
the integer number of days remaining until the due date. -/
def categorizar_prazo (dias : Int) : String :=
  if dias ≤ 0 then "Vencidas/Hoje"
  else if dias ≤ 7 then "Até 7 dias"
  else if 8 ≤ dias ∧ dias ≤ 15 then "8 a 15 dias"
  else if 16 ≤ dias ∧ dias ≤ 30 then "16 a 30 dias"
  else "Mais de 30 dias"

/-- The argument of `formatar_moeda`: `nulo` covers `None`/`NaN` inputs
(`pd.isna` true); `num q` covers inputs `float(...)` converts successfully;
`naoNumerico` covers inputs for which `float(...)` raises `TypeError` or
`ValueError`. -/
inductive Valor where
  | nulo : Valor
  | num : ℚ → Valor
  | naoNumerico : String → Valor
deriving DecidableEq

/-- Round to the nearest integer, ties to even: the rounding applied by
Python's fixed-point float formatting `f"{v:,.2f}"` (scaled by 100). -/
def roundHalfEven (q : ℚ) : Int :=
  if q - ⌊q⌋ < 1/2 then ⌊q⌋
  else if (1 : ℚ)/2 < q - ⌊q⌋ then ⌊q⌋ + 1
  else if ⌊q⌋ % 2 = 0 then ⌊q⌋ else ⌊q⌋ + 1

/-- Insert a `,` after every three characters of a reversed digit string:
the thousands grouping of Python's `,` format flag. -/
def groupChars : List Char → List Char
  | a :: b :: c :: d :: rest => a :: b :: c :: ',' :: groupChars (d :: rest)
  | l => l

/-- Thousands grouping of a digit string. -/
def groupThousands (s : String) : String :=
  String.mk ((groupChars s.data.reverse).reverse)

/-- Two-digit zero-padded decimal string for the cents part. -/
def twoDigits (n : Nat) : String :=
  if n < 10 then "0" ++ toString n else toString n

/-- US-style fixed-point rendering of an amount given in cents: the result of
Python's `f"{v:,.2f}"` once the value is rounded to cents. -/
def formatCents (cents : Int) : String :=
  let sinal := if cents < 0 then "-" else ""
  let n := cents.natAbs
  sinal ++ groupThousands (toString (n / 100)) ++ "." ++ twoDigits (n % 100)

/-- Python `f"{v:,.2f}"` on a numeric value. -/
def formatNum (q : ℚ) : String := formatCents (roundHalfEven (q * 100))

/-- Replace every occurrence of one character, embedding `str.replace` for
the single-character patterns used by `formatar_moeda`. -/
def replaceChar (pat rep : Char) (s : String) : String :=
  String.mk (s.data.map (fun c => if c == pat then rep else c))

/-- The separator swap `.replace(',', 'X').replace('.', ',').replace('X', '.')`
of `formatar_moeda`. -/
def brlSwap (s : String) : String :=
  replaceChar 'X' '.' (replaceChar '.' ',' (replaceChar ',' 'X' s))

/-- `formatar_moeda` (source lines 10-22).  In the source `simbolo_moeda`
defaults to `"R$"`; here it is passed explicitly. -/
def formatar_moeda (valor : Valor) (simbolo_moeda : String) : String :=
  match valor with
  | Valor.nulo => ""
  | Valor.num q => brlSwap (simbolo_moeda ++ " " ++ formatNum q)
  | Valor.naoNumerico _ => "Valor inválido"

/-- Example date used as "today" in concrete instances. -/
def hoje0 : Date := ⟨2025, 6, 15⟩

/-- An open record overdue relative to `hoje0`. -/
def contaVencida : Record :=
  { fornecedor := "F1", numero_documento := "10", descricao_tipo_documento := "Boleto",
    data_emissao := some ⟨2024, 12, 1⟩, data_vencimento := some ⟨2025, 1, 10⟩,
    data_quitacao := none, valor_documento := 100, valor_desconto := 0,
    valor_saldo := 100, status_documento := "aberto" }

/-- An open record not yet due relative to `hoje0`. -/
def contaFutura : Record :=
  { fornecedor := "F2", numero_documento := "11", descricao_tipo_documento := "Boleto",
    data_emissao := some ⟨2025, 5, 1⟩, data_vencimento := some ⟨2025, 12, 31⟩,
    data_quitacao := none, valor_documento := 100, valor_desconto := 0,
    valor_saldo := 100, status_documento := "aberto" }

/-- Claim C1: a record is overdue iff its status is open (case-insensitive)
and its due date is known and strictly before today; a record due today, a
record with unknown due date, and a record with non-open status are never
overdue. -/
theorem C1_is_overdue_characterization : ∀ (today : Date) (r : Record),
    (is_overdue today r = true ↔
      lowerStr r.status_documento = "aberto" ∧
      ∃ d, r.data_vencimento = some d ∧ Date.before d today = true) ∧
    (r.data_vencimento = some today → is_overdue today r = false) ∧
    (r.data_vencimento = none → is_overdue today r = false) ∧
    (lowerStr r.status_documento ≠ "aberto" → is_overdue today r = false) := by
  intro today r
  refine ⟨?_, ?_, ?_, ?_⟩
  · cases h : r.data_vencimento with
    | none => simp [is_overdue, isAberto, h]
    | some d => simp [is_overdue, isAberto, h]
  · intro h
    simp [is_overdue, isAberto, h, Date.before]
  · intro h
    simp [is_overdue, isAberto, h]
  · intro h
    simp [is_overdue, isAberto, h]

/-- Witness for C1 at a concrete overdue record. -/
theorem C1_witness : is_overdue hoje0 contaVencida = true :=
  (C1_is_overdue_characterization hoje0 contaVencida).1.mpr
    ⟨by decide, ⟨⟨2025, 1, 10⟩, by decide, by decide⟩⟩

/-- Claim C2: the term-bucket categorization is total and disjoint over all
integers, with the documented boundary behavior: `d ≤ 0` is bucket
"Vencidas/Hoje", `1..7` is "Até 7 dias", `8..15` is "8 a 15 dias",
`16..30` is "16 a 30 dias", and `d > 30` is "Mais de 30 dias"; the boundary
inputs 0, 7, 8, 15, 16, 30, 31 land in the documented buckets. -/
theorem C2_categorizar_prazo_buckets :
    (∀ d : Int,
      (categorizar_prazo d = "Vencidas/Hoje" ∨ categorizar_prazo d = "Até 7 dias" ∨
        categorizar_prazo d = "8 a 15 dias" ∨ categorizar_prazo d = "16 a 30 dias" ∨
        categorizar_prazo d = "Mais de 30 dias") ∧
      (categorizar_prazo d = "Vencidas/Hoje" ↔ d ≤ 0) ∧
      (categorizar_prazo d = "Até 7 dias" ↔ 1 ≤ d ∧ d ≤ 7) ∧
      (categorizar_prazo d = "8 a 15 dias" ↔ 8 ≤ d ∧ d ≤ 15) ∧
      (categorizar_prazo d = "16 a 30 dias" ↔ 16 ≤ d ∧ d ≤ 30) ∧
      (categorizar_prazo d = "Mais de 30 dias" ↔ 31 ≤ d)) ∧
    categorizar_prazo 0 = "Vencidas/Hoje" ∧ categorizar_prazo 7 = "Até 7 dias" ∧
    categorizar_prazo 8 = "8 a 15 dias" ∧ categorizar_prazo 15 = "8 a 15 dias" ∧
    categorizar_prazo 16 = "16 a 30 dias" ∧ categorizar_prazo 30 = "16 a 30 dias" ∧
    categorizar_prazo 31 = "Mais de 30 dias" := by
  constructor
  · intro d
    unfold categorizar_prazo
    split_ifs <;>
      refine ⟨?_, ?_, ?_, ?_, ?_, ?_⟩ <;>
        first
          | exact iff_of_true rfl (by omega)
          | exact iff_of_false (by decide) (by omega)
          | simp
  · refine ⟨by decide, by decide, by decide, by decide, by decide, by decide, by decide⟩

/-- Claim C8: the currency formatter is total: a numeric value is rendered in
Brazilian format (1234.5 becomes "R$ 1.234,50"), a null/NaN value yields the
empty string, and a non-numeric value yields the sentinel "Valor inválido"
instead of an exception. -/
theorem C8_formatar_moeda_total :
    formatar_moeda (Valor.num (1234.5 : ℚ)) "R$" = "R$ 1.234,50" ∧
    formatar_moeda Valor.nulo "R$" = "" ∧
    (∀ s : String, formatar_moeda (Valor.naoNumerico s) "R$" = "Valor inválido") := by
  refine ⟨?_, rfl, fun s => rfl⟩
  have h : roundHalfEven ((1234.5 : ℚ) * 100) = 123450 := by
    norm_num [roundHalfEven]
  show brlSwap ("R$" ++ " " ++ formatCents (roundHalfEven ((1234.5 : ℚ) * 100))) = "R$ 1.234,50"
  rw [h]
  decide

/-- Claim C10: the overdue percentage divides only behind a positivity guard:
when the total open balance is positive the percentage is
overdue/total * 100, and otherwise (zero or negative total, in particular
the empty table) it is 0. -/
theorem C10_percentual_vencido_guard : ∀ (today : Date) (df : List Record),
    (0 < valor_total_em_aberto df →
      percentual_vencido today df =
        valor_total_vencido today df / valor_total_em_aberto df * 100) ∧
    (valor_total_em_aberto df ≤ 0 → percentual_vencido today df = 0) ∧
    percentual_vencido today [] = 0 := by
  intro today df
  refine ⟨?_, ?_, ?_⟩
  · intro h
    simp only [percentual_vencido]
    rw [if_pos h]
  · intro h
    simp only [percentual_vencido]
    rw [if_neg (by exact not_lt.mpr h)]
  · simp [percentual_vencido, valor_total_em_aberto]

/-- Witness for C10 at a table with positive open balance. -/
theorem C10_witness :
    percentual_vencido hoje0 [contaVencida, contaFutura] =
      valor_total_vencido hoje0 [contaVencida, contaFutura] /
        valor_total_em_aberto [contaVencida, contaFutura] * 100 :=
  (C10_percentual_vencido_guard hoje0 [contaVencida, contaFutura]).1 (by
    simp [valor_total_em_aberto, isAberto, contaVencida, contaFutura, lowerStr, lowerChar])

/-- The month stage of the global filter (source lines 134-140): with a month
selected, keep the rows whose due-date month OR settlement-date month equals
the selected period; `none` embeds the 'Todos os Meses' sentinel, where no
month filtering happens. -/
def filtro_mes (mes : Option Int) (df : List Record) : List Record :=
  match mes with
  | none => df
  | some p => df.filter (fun r => dueMonth r == some p || quitMonth r == some p)

/-- The status stage of the global filter (source lines 142-143):
`isin(status_selecionados)`, an exact string membership test, skipped when
the 'Todos' sentinel is among the selections. -/
def filtro_status (sel : List String) (df : List Record) : List Record :=
  if "Todos" ∈ sel then df
  else df.filter (fun r => sel.contains r.status_documento)

/-- The document-type stage of the global filter (source lines 145-146). -/
def filtro_tipo (sel : List String) (df : List Record) : List Record :=
  if "Todos" ∈ sel then df
  else df.filter (fun r => sel.contains r.descricao_tipo_documento)

/-- `df_filtrado_global` (source lines 132-146): the three filter stages
applied in source order. -/
def df_filtrado_global (mes : Option Int) (status_sel tipo_sel : List String)
    (df : List Record) : List Record :=
  filtro_tipo tipo_sel (filtro_status status_sel (filtro_mes mes df))

/-- A status filter following the claim's words instead of the source:
membership compared case-insensitively. -/
def filtro_status_ci (sel : List String) (df : List Record) : List Record :=
  if "Todos" ∈ sel then df
  else df.filter (fun r => sel.any (fun s => lowerStr s == lowerStr r.status_documento))

/-- The global filter as the claim describes it: case-insensitive status
membership, exact document-type membership. -/
def df_filtrado_global_ci (mes : Option Int) (status_sel tipo_sel : List String)
    (df : List Record) : List Record :=
  filtro_tipo tipo_sel (filtro_status_ci status_sel (filtro_mes mes df))

/-- `get_valor_total_contas_a_pagar_aberto` applied to the month-filtered
table: the open-balance-by-month aggregate (source lines 93-96 with
lines 134-140). -/
def get_open_balance_by_month (p : Int) (df : List Record) : ℚ :=
  get_valor_total_contas_a_pagar_aberto (filtro_mes (some p) df)

/-- The open-balance-by-month aggregate following the claim's words: open
records whose due-date month is the reference month. -/
def open_balance_by_month_claim (p : Int) (df : List Record) : ℚ :=
  ((df.filter (fun r => isAberto r && dueMonth r == some p)).map Record.valor_saldo).sum

/-- The open-balance-by-month aggregate as the source computes it: open
records whose due-date month OR settlement-date month is the reference
month. -/
def open_balance_by_month_amended (p : Int) (df : List Record) : ℚ :=
  ((df.filter (fun r =>
    isAberto r && (dueMonth r == some p || quitMonth r == some p))).map
      Record.valor_saldo).sum

/-- An open record with a settlement date: its settlement month differs from
its due month, separating the source's month filter from the claim's. -/
def contaAbertaComQuitacao : Record :=
  { fornecedor := "F3", numero_documento := "12", descricao_tipo_documento := "Boleto",
    data_emissao := none, data_vencimento := some ⟨2024, 3, 10⟩,
    data_quitacao := some ⟨2024, 1, 5⟩, valor_documento := 100, valor_desconto := 0,
    valor_saldo := 100, status_documento := "aberto" }

/-- The claim's first example record: open, due 2024-01-10, balance 100. -/
def exemploJaneiro : Record :=
  { fornecedor := "E1", numero_documento := "20", descricao_tipo_documento := "Boleto",
    data_emissao := none, data_vencimento := some ⟨2024, 1, 10⟩,
    data_quitacao := none, valor_documento := 100, valor_desconto := 0,
    valor_saldo := 100, status_documento := "aberto" }

/-- The claim's second example record: open, due 2024-02-05, balance 50. -/
def exemploFevereiro : Record :=
  { fornecedor := "E2", numero_documento := "21", descricao_tipo_documento := "Boleto",
    data_emissao := none, data_vencimento := some ⟨2024, 2, 5⟩,
    data_quitacao := none, valor_documento := 50, valor_desconto := 0,
    valor_saldo := 50, status_documento := "aberto" }

/-- Claim C3 counterexample: for an open record whose settlement month is the
reference month but whose due month is not, the source's aggregate (100)
differs from the claim's due-month-only aggregate (0). -/
theorem C3_counterexample :
    get_open_balance_by_month (Date.toPeriod ⟨2024, 1, 1⟩) [contaAbertaComQuitacao] ≠
      open_balance_by_month_claim (Date.toPeriod ⟨2024, 1, 1⟩) [contaAbertaComQuitacao] := by
  simp [get_open_balance_by_month, open_balance_by_month_claim,
    get_valor_total_contas_a_pagar_aberto, filtro_mes, contaAbertaComQuitacao,
    isAberto, dueMonth, quitMonth, lowerStr, lowerChar, Date.toPeriod]

/-- Claim C3 amended: the open-balance aggregate sums balance over open
records whose due-date month OR settlement-date month equals the reference
month (unknown dates never match); the claim's two-record example still
yields 100 for 2024-01 and 50 for 2024-02. -/
theorem C3_open_balance_amended :
    (∀ (p : Int) (df : List Record),
      get_open_balance_by_month p df = open_balance_by_month_amended p df) ∧
    get_open_balance_by_month (Date.toPeriod ⟨2024, 1, 1⟩)
      [exemploJaneiro, exemploFevereiro] = 100 ∧
    get_open_balance_by_month (Date.toPeriod ⟨2024, 2, 1⟩)
      [exemploJaneiro, exemploFevereiro] = 50 := by
  refine ⟨?_, ?_, ?_⟩
  · intro p df
    simp only [get_open_balance_by_month, open_balance_by_month_amended,
      get_valor_total_contas_a_pagar_aberto, filtro_mes, List.filter_filter]
  · simp [get_open_balance_by_month, get_valor_total_contas_a_pagar_aberto, filtro_mes,
      exemploJaneiro, exemploFevereiro, isAberto, dueMonth, quitMonth, lowerStr,
      lowerChar, Date.toPeriod]
  · simp [get_open_balance_by_month, get_valor_total_contas_a_pagar_aberto, filtro_mes,
      exemploJaneiro, exemploFevereiro, isAberto, dueMonth, quitMonth, lowerStr,
      lowerChar, Date.toPeriod]

/-- Claim C4: with the 'Todos' sentinel selected for statuses and for
document types (and the 'Todos os Meses' month sentinel), the global filter
returns the table unchanged. -/
theorem C4_filter_all_roundtrip : ∀ (df : List Record) (ss ts : List String),
    "Todos" ∈ ss → "Todos" ∈ ts → df_filtrado_global none ss ts df = df := by
  intro df ss ts hs ht
  simp [df_filtrado_global, filtro_mes, filtro_status, filtro_tipo, hs, ht]

/-- Witness for C4 at a concrete table and selections. -/
theorem C4_witness :
    df_filtrado_global none ["Todos"] ["Todos"] [contaVencida, contaFutura] =
      [contaVencida, contaFutura] :=
  C4_filter_all_roundtrip [contaVencida, contaFutura] ["Todos"] ["Todos"]
    (by decide) (by decide)

/-- A record whose status is upper-case "ABERTO": selected statuses in
lower case keep it under the claim's case-insensitive reading but not under
the source's exact `isin`. -/
def contaMaiuscula : Record :=
  { fornecedor := "F4", numero_documento := "13", descricao_tipo_documento := "Boleto",
    data_emissao := none, data_vencimento := some ⟨2025, 7, 1⟩,
    data_quitacao := none, valor_documento := 100, valor_desconto := 0,
    valor_saldo := 100, status_documento := "ABERTO" }

/-- Claim C5 counterexample: with only "aberto" selected, the source filter
drops the record with status "ABERTO" while the claim's case-insensitive
filter keeps it. -/
theorem C5_counterexample :
    df_filtrado_global none ["aberto"] ["Todos"] [contaMaiuscula] ≠
      df_filtrado_global_ci none ["aberto"] ["Todos"] [contaMaiuscula] := by
  decide

/-- Claim C5 amended: status filtering is case-sensitive exact membership:
with neither selection containing 'Todos', the filtered subset holds exactly
the records whose status string is literally among the selected statuses and
whose document type is literally among the selected types. -/
theorem C5_status_filter_exact : ∀ (df : List Record) (ss ts : List String),
    "Todos" ∉ ss → "Todos" ∉ ts →
    df_filtrado_global none ss ts df =
      df.filter (fun r =>
        ss.contains r.status_documento && ts.contains r.descricao_tipo_documento) := by
  intro df ss ts hs ht
  simp only [df_filtrado_global, filtro_mes, filtro_status, filtro_tipo, if_neg hs,
    if_neg ht, List.filter_filter]
  apply List.filter_congr
  intro r _
  exact Bool.and_comm _ _

/-- Witness for C5 at a concrete table and selections. -/
theorem C5_witness :
    df_filtrado_global none ["aberto"] ["Boleto"] [contaVencida, contaMaiuscula] =
      List.filter (fun r =>
        List.contains ["aberto"] r.status_documento &&
          List.contains ["Boleto"] r.descricao_tipo_documento)
        [contaVencida, contaMaiuscula] :=
  C5_status_filter_exact [contaVencida, contaMaiuscula] ["aberto"] ["Boleto"]
    (by decide) (by decide)

/-- Insert a key into a sorted duplicate-free list of keys, keeping it sorted
and duplicate-free. -/
def insertKey (a : Int) : List Int → List Int
  | [] => [a]
  | b :: l => if a < b then a :: b :: l else if a = b then b :: l else b :: insertKey a l

/-- The sorted list of distinct keys of a list: pandas `groupby` group keys
(sorted ascending, each once). -/
def sortedKeys : List Int → List Int
  | [] => []
  | a :: l => insertKey a (sortedKeys l)

/-- Drop the pairs with a null key: pandas `groupby` excludes `NaT`/NaN keys. -/
def validPairs {α : Type} (pairs : List (Option Int × α)) : List (Int × α) :=
  pairs.filterMap (fun p => match p.1 with | some k => some (k, p.2) | none => none)

/-- Sum of the values attached to one key. -/
def keySum {α : Type} [AddCommMonoid α] (k : Int) (l : List (Int × α)) : α :=
  ((l.filter (fun p => p.1 == k)).map Prod.snd).sum

/-- Embeds `series.groupby(keys).sum()`: drop null keys, one row per distinct
key in ascending key order, each row holding the sum of its group. -/
def groupBySum {α : Type} [AddCommMonoid α] (pairs : List (Option Int × α)) :
    List (Int × α) :=
  (sortedKeys ((validPairs pairs).map Prod.fst)).map
    (fun k => (k, keySum k (validPairs pairs)))

/-- Value of a key in a keyed list, 0 when absent: the behavior of a column
after an outer merge followed by `fillna(0)`. -/
def lookupZero {α : Type} [Zero α] (k : Int) (l : List (Int × α)) : α :=
  match l.find? (fun p => p.1 == k) with
  | some p => p.2
  | none => 0

/-- Embeds `pd.merge(xs, ys, on=key, how='outer').fillna(0)` followed by a
sort on the key, for key-unique inputs: one row per key present in either
side, in ascending key order, missing sides filled with 0. -/
def outerMergeFill (xs ys : List (Int × ℚ)) : List (Int × ℚ × ℚ) :=
  (sortedKeys (xs.map Prod.fst ++ ys.map Prod.fst)).map
    (fun k => (k, lookupZero k xs, lookupZero k ys))

theorem mem_insertKey (a b : Int) (l : List Int) :
    b ∈ insertKey a l ↔ b = a ∨ b ∈ l := by
  induction l with
  | nil => simp [insertKey]
  | cons c l ih =>
    simp only [insertKey]
    split_ifs with h1 h2
    · simp only [List.mem_cons]
    · subst h2
      simp only [List.mem_cons]
      tauto
    · simp only [List.mem_cons, ih]
      tauto

theorem sorted_insertKey (a : Int) (l : List Int) (h : l.Sorted (· < ·)) :
    (insertKey a l).Sorted (· < ·) := by
  induction l with
  | nil => simp [insertKey]
  | cons c l ih =>
    rw [List.sorted_cons] at h
    obtain ⟨hc, hl⟩ := h
    simp only [insertKey]
    split_ifs with h1 h2
    · rw [List.sorted_cons]
      refine ⟨?_, ?_⟩
      · intro b hb
        rcases List.mem_cons.mp hb with rfl | hb
        · exact h1
        · exact lt_trans h1 (hc b hb)
      · rw [List.sorted_cons]
        exact ⟨hc, hl⟩
    · rw [List.sorted_cons]
      exact ⟨hc, hl⟩
    · rw [List.sorted_cons]
      refine ⟨?_, ih hl⟩
      intro b hb
      rcases (mem_insertKey a b l).mp hb with rfl | hb
      · omega
      · exact hc b hb

theorem sorted_sortedKeys (l : List Int) : (sortedKeys l).Sorted (· < ·) := by
  induction l with
  | nil => simp [sortedKeys]
  | cons a l ih => exact sorted_insertKey a _ ih

theorem mem_sortedKeys (b : Int) (l : List Int) : b ∈ sortedKeys l ↔ b ∈ l := by
  induction l with
  | nil => simp [sortedKeys]
  | cons a l ih => simp [sortedKeys, mem_insertKey, ih]

theorem find?_map_key_mem {α : Type} (f : Int → α) (k : Int) (ks : List Int)
    (h : k ∈ ks) :
    (ks.map (fun x => (x, f x))).find? (fun p => p.1 == k) = some (k, f k) := by
  induction ks with
  | nil => cases h
  | cons a ks ih =>
    by_cases hak : a = k
    · subst hak
      rw [List.map_cons, List.find?_cons_of_pos _ (by simp)]
    · rw [List.map_cons, List.find?_cons_of_neg _ (by simp [hak])]
      exact ih (by
        rcases List.mem_cons.mp h with rfl | hm
        · exact absurd rfl hak
        · exact hm)

theorem find?_map_key_not_mem {α : Type} (f : Int → α) (k : Int) (ks : List Int)
    (h : k ∉ ks) :
    (ks.map (fun x => (x, f x))).find? (fun p => p.1 == k) = none := by
  rw [List.find?_eq_none]
  intro p hp
  simp only [List.mem_map] at hp
  obtain ⟨x, hx, rfl⟩ := hp
  simp only [beq_iff_eq]
  intro hxk
  exact h (hxk ▸ hx)

theorem lookupZero_groupBySum {α : Type} [AddCommMonoid α] (k : Int)
    (pairs : List (Option Int × α)) :
    lookupZero k (groupBySum pairs) = keySum k (validPairs pairs) := by
  unfold lookupZero groupBySum
  by_cases h : k ∈ sortedKeys ((validPairs pairs).map Prod.fst)
  · rw [find?_map_key_mem _ k _ h]
  · rw [find?_map_key_not_mem _ k _ h]
    have hnk : k ∉ (validPairs pairs).map Prod.fst :=
      fun hmem => h ((mem_sortedKeys k _).mpr hmem)
    have hfil : (validPairs pairs).filter (fun p => p.1 == k) = [] := by
      rw [List.filter_eq_nil_iff]
      intro p hp
      simp only [beq_iff_eq]
      intro hk
      exact hnk (List.mem_map.mpr ⟨p, hp, hk⟩)
    simp [keySum, hfil]

theorem validPairs_cons_none {α : Type} (x : Option Int × α)
    (l : List (Option Int × α)) (h : x.1 = none) :
    validPairs (x :: l) = validPairs l := by
  simp [validPairs, List.filterMap_cons, h]

theorem validPairs_cons_some {α : Type} (x : Option Int × α) (k : Int)
    (l : List (Option Int × α)) (h : x.1 = some k) :
    validPairs (x :: l) = (k, x.2) :: validPairs l := by
  simp [validPairs, List.filterMap_cons, h]

theorem keySum_map {β α : Type} [AddCommMonoid α] (key : β → Option Int)
    (v : β → α) (k : Int) (rows : List β) :
    keySum k (validPairs (rows.map (fun r => (key r, v r)))) =
      ((rows.filter (fun r => key r == some k)).map v).sum := by
  induction rows with
  | nil => simp [keySum, validPairs]
  | cons r rows ih =>
    cases hk : key r with
    | none =>
      rw [List.map_cons, validPairs_cons_none _ _ (by simp [hk]),
        List.filter_cons_of_neg (by simp [hk]), ih]
    | some kr =>
      rw [List.map_cons, validPairs_cons_some _ kr _ (by simp [hk])]
      by_cases hkk : kr = k
      · subst hkk
        rw [List.filter_cons_of_pos (by simp [hk])]
        simp only [keySum]
        rw [List.filter_cons_of_pos (by simp), List.map_cons, List.sum_cons,
          List.map_cons, List.sum_cons]
        simp only [keySum] at ih
        rw [ih]
      · rw [List.filter_cons_of_neg (by simp [hk, hkk])]
        simp only [keySum]
        rw [List.filter_cons_of_neg (by simp [hkk])]
        simp only [keySum] at ih
        rw [ih]

theorem mem_keys_validPairs {β α : Type} (key : β → Option Int) (v : β → α)
    (k : Int) (rows : List β) :
    k ∈ (validPairs (rows.map (fun r => (key r, v r)))).map Prod.fst ↔
      ∃ r ∈ rows, key r = some k := by
  induction rows with
  | nil => simp [validPairs]
  | cons r rows ih =>
    cases hk : key r with
    | none =>
      rw [List.map_cons, validPairs_cons_none _ _ (by simp [hk])]
      simp only [ih, List.mem_cons]
      constructor
      · rintro ⟨x, hx, hxk⟩
        exact ⟨x, Or.inr hx, hxk⟩
      · rintro ⟨x, hx | hx, hxk⟩
        · subst hx
          rw [hk] at hxk
          cases hxk
        · exact ⟨x, hx, hxk⟩
    | some kr =>
      rw [List.map_cons, validPairs_cons_some _ kr _ (by simp [hk])]
      simp only [List.map_cons, List.mem_cons, ih]
      constructor
      · rintro (rfl | ⟨x, hx, hxk⟩)
        · exact ⟨r, Or.inl rfl, hk⟩
        · exact ⟨x, Or.inr hx, hxk⟩
      · rintro ⟨x, hx | hx, hxk⟩
        · subst hx
          rw [hk] at hxk
          cases hxk
          exact Or.inl rfl
        · exact Or.inr ⟨x, hx, hxk⟩

theorem find?_map_snd {α β : Type} (g : α → β) (k : Int) (l : List (Int × α)) :
    (l.map (fun p => (p.1, g p.2))).find? (fun p => p.1 == k) =
      (l.find? (fun p => p.1 == k)).map (fun p => (p.1, g p.2)) := by
  induction l with
  | nil => simp
  | cons p l ih =>
    by_cases hp : p.1 = k
    · rw [List.map_cons, List.find?_cons_of_pos _ (by simp [hp]),
        List.find?_cons_of_pos _ (by simp [hp])]
      rfl
    · rw [List.map_cons, List.find?_cons_of_neg _ (by simp [hp]),
        List.find?_cons_of_neg _ (by simp [hp]), ih]

theorem lookupZero_sub (k : Int) (l : List (Int × (ℚ × ℚ))) :
    lookupZero k (l.map (fun p => (p.1, p.2.1 - p.2.2))) =
      (lookupZero k l).1 - (lookupZero k l).2 := by
  unfold lookupZero
  rw [find?_map_snd (fun x => x.1 - x.2) k l]
  cases l.find? (fun p => p.1 == k) with
  | none => simp
  | some p => simp

theorem sum_map_pair {β : Type} (f g : β → ℚ) (l : List β) :
    (l.map (fun r => (f r, g r))).sum = ((l.map f).sum, (l.map g).sum) := by
  induction l with
  | nil => simp [Prod.ext_iff]
  | cons r l ih =>
    simp only [List.map_cons, List.sum_cons, ih, Prod.mk_add_mk]

theorem sum_map_sub {β : Type} (f g : β → ℚ) (l : List β) :
    (l.map (fun r => f r - g r)).sum = (l.map f).sum - (l.map g).sum := by
  induction l with
  | nil => simp
  | cons r l ih =>
    simp only [List.map_cons, List.sum_cons, ih]
    ring

theorem keys_groupBySum {α : Type} [AddCommMonoid α]
    (pairs : List (Option Int × α)) :
    (groupBySum pairs).map Prod.fst =
      sortedKeys ((validPairs pairs).map Prod.fst) := by
  unfold groupBySum
  rw [List.map_map]
  simp [Function.comp_def]

/-- `df_ano` (source lines 319-322): restriction to the analysis year, by
due-date year OR settlement-date year. -/
def df_ano (ano : Int) (df : List Record) : List Record :=
  df.filter (fun r => dueYear r == some ano || quitYear r == some ano)

/-- `df_previsto` (source lines 325-328): open records of the analysis year
grouped by due month, summing balance. -/
def df_previsto (ano : Int) (df : List Record) : List (Int × ℚ) :=
  groupBySum (((df_ano ano df).filter isAberto).map
    (fun r => (dueMonth r, r.valor_saldo)))

/-- `df_realizado` (source lines 334-339): settled records of the analysis
year grouped by settlement month, summing document value and discount per
group and taking their difference. -/
def df_realizado (ano : Int) (df : List Record) : List (Int × ℚ) :=
  (groupBySum (((df_ano ano df).filter isQuitado).map
    (fun r => (quitMonth r, (r.valor_documento, r.valor_desconto))))).map
    (fun p => (p.1, p.2.1 - p.2.2))

/-- `df_comparativo` (source lines 344-345): outer merge of the forecast and
actual series on the period, missing sides filled with 0, sorted by period. -/
def df_comparativo (ano : Int) (df : List Record) : List (Int × ℚ × ℚ) :=
  outerMergeFill (df_previsto ano df) (df_realizado ano df)

/-- The forecast value of one month as the claim describes it: sum of
balance over the open records of the year with that due month. -/
def previstoSpec (ano k : Int) (df : List Record) : ℚ :=
  (((df_ano ano df).filter (fun r => isAberto r && dueMonth r == some k)).map
    Record.valor_saldo).sum

/-- The actual value of one month as the claim describes it: sum of
(document value − discount) over the settled records of the year with that
settlement month. -/
def realizadoSpec (ano k : Int) (df : List Record) : ℚ :=
  (((df_ano ano df).filter (fun r => isQuitado r && quitMonth r == some k)).map
    (fun r => r.valor_documento - r.valor_desconto)).sum

/-- `valores_periodo` in the 'Todos os Meses' branch (source lines 198-206):
records with due date in the current year — of any status — grouped by due
month, summing `valor_documento`. -/
def valores_periodo (ano : Int) (df : List Record) : List (Int × ℚ) :=
  groupBySum ((df.filter (fun r => dueYear r == some ano)).map
    (fun r => (dueMonth r, r.valor_documento)))

/-- The payments-by-period series as the claim describes it: settled records
with settlement date in the analysis year, grouped by settlement month,
summing `valor_documento`. -/
def valores_periodo_claim (ano : Int) (df : List Record) : List (Int × ℚ) :=
  groupBySum ((df.filter (fun r => isQuitado r && quitYear r == some ano)).map
    (fun r => (quitMonth r, r.valor_documento)))

/-- The value of one month of `valores_periodo` stated directly: sum of
document value over the records with due date in the year and that due
month. -/
def valoresPeriodoSpec (ano k : Int) (df : List Record) : ℚ :=
  ((df.filter (fun r => dueYear r == some ano && dueMonth r == some k)).map
    Record.valor_documento).sum

theorem snd_of_mem_groupBySum {α : Type} [AddCommMonoid α]
    (pairs : List (Option Int × α)) (e : Int × α) (he : e ∈ groupBySum pairs) :
    e.2 = keySum e.1 (validPairs pairs) := by
  unfold groupBySum at he
  obtain ⟨k, hk, rfl⟩ := List.mem_map.mp he
  rfl

theorem mem_outerMergeFill {xs ys : List (Int × ℚ)} {e : Int × ℚ × ℚ}
    (he : e ∈ outerMergeFill xs ys) :
    e.2.1 = lookupZero e.1 xs ∧ e.2.2 = lookupZero e.1 ys := by
  unfold outerMergeFill at he
  obtain ⟨k, hk, rfl⟩ := List.mem_map.mp he
  exact ⟨rfl, rfl⟩

theorem keys_outerMergeFill (xs ys : List (Int × ℚ)) :
    (outerMergeFill xs ys).map Prod.fst =
      sortedKeys (xs.map Prod.fst ++ ys.map Prod.fst) := by
  unfold outerMergeFill
  rw [List.map_map]
  simp [Function.comp_def]

theorem keys_map_sub (l : List (Int × (ℚ × ℚ))) :
    (l.map (fun p => (p.1, p.2.1 - p.2.2))).map Prod.fst = l.map Prod.fst := by
  rw [List.map_map]
  simp [Function.comp_def]

theorem lookupZero_previsto (ano k : Int) (df : List Record) :
    lookupZero k (df_previsto ano df) = previstoSpec ano k df := by
  unfold df_previsto previstoSpec
  rw [lookupZero_groupBySum, keySum_map dueMonth Record.valor_saldo,
    List.filter_filter]
  congr 1
  congr 1
  apply List.filter_congr
  intro r _
  exact Bool.and_comm _ _

theorem lookupZero_realizado (ano k : Int) (df : List Record) :
    lookupZero k (df_realizado ano df) = realizadoSpec ano k df := by
  unfold df_realizado realizadoSpec
  simp only [lookupZero_sub, lookupZero_groupBySum,
    keySum_map quitMonth (fun r => (r.valor_documento, r.valor_desconto)),
    sum_map_pair]
  rw [← sum_map_sub, List.filter_filter]
  congr 1
  congr 1
  apply List.filter_congr
  intro r _
  exact Bool.and_comm _ _

theorem mem_keys_previsto (ano k : Int) (df : List Record) :
    k ∈ (df_previsto ano df).map Prod.fst ↔
      ∃ r ∈ df_ano ano df, isAberto r = true ∧ dueMonth r = some k := by
  unfold df_previsto
  rw [keys_groupBySum, mem_sortedKeys, mem_keys_validPairs]
  constructor
  · rintro ⟨r, hr, hrk⟩
    rw [List.mem_filter] at hr
    exact ⟨r, hr.1, hr.2, hrk⟩
  · rintro ⟨r, hr, ha, hm⟩
    exact ⟨r, List.mem_filter.mpr ⟨hr, ha⟩, hm⟩

theorem mem_keys_realizado (ano k : Int) (df : List Record) :
    k ∈ (df_realizado ano df).map Prod.fst ↔
      ∃ r ∈ df_ano ano df, isQuitado r = true ∧ quitMonth r = some k := by
  unfold df_realizado
  rw [keys_map_sub, keys_groupBySum, mem_sortedKeys, mem_keys_validPairs]
  constructor
  · rintro ⟨r, hr, hrk⟩
    rw [List.mem_filter] at hr
    exact ⟨r, hr.1, hr.2, hrk⟩
  · rintro ⟨r, hr, ha, hm⟩
    exact ⟨r, List.mem_filter.mpr ⟨hr, ha⟩, hm⟩

/-- Claim C6: for every record set and analysis year, the comparison table
is sorted ascending by period; its periods are exactly the months carrying
an open record (by due month) or a settled record (by settlement month) of
the year; and each row holds the forecast sum (balance of open records due
that month) and the actual sum (document value minus discount of records
settled that month), each 0 when that side has no records. -/
theorem C6_df_comparativo_characterization : ∀ (ano : Int) (df : List Record),
    ((df_comparativo ano df).map Prod.fst).Sorted (· < ·) ∧
    (∀ k : Int, (∃ e ∈ df_comparativo ano df, e.1 = k) ↔
      ((∃ r ∈ df_ano ano df, isAberto r = true ∧ dueMonth r = some k) ∨
       (∃ r ∈ df_ano ano df, isQuitado r = true ∧ quitMonth r = some k))) ∧
    (∀ e ∈ df_comparativo ano df,
      e.2.1 = previstoSpec ano e.1 df ∧ e.2.2 = realizadoSpec ano e.1 df) := by
  intro ano df
  refine ⟨?_, ?_, ?_⟩
  · unfold df_comparativo
    rw [keys_outerMergeFill]
    exact sorted_sortedKeys _
  · intro k
    have hmm : (∃ e ∈ df_comparativo ano df, e.1 = k) ↔
        k ∈ (df_comparativo ano df).map Prod.fst := by
      rw [List.mem_map]
    rw [hmm]
    unfold df_comparativo
    rw [keys_outerMergeFill, mem_sortedKeys, List.mem_append,
      mem_keys_previsto, mem_keys_realizado]
  · intro e he
    unfold df_comparativo at he
    have h2 := mem_outerMergeFill he
    exact ⟨h2.1.trans (lookupZero_previsto ano e.1 df),
      h2.2.trans (lookupZero_realizado ano e.1 df)⟩

/-- Witness for C6: with one open 2024 record due in January 2024, the
comparison table has a row for that period. -/
theorem C6_witness :
    ∃ e ∈ df_comparativo 2024 [exemploJaneiro], e.1 = Date.toPeriod ⟨2024, 1, 10⟩ :=
  ((C6_df_comparativo_characterization 2024 [exemploJaneiro]).2.1
      (Date.toPeriod ⟨2024, 1, 10⟩)).mpr
    (Or.inl ⟨exemploJaneiro,
      by simp [df_ano, dueYear, quitYear, exemploJaneiro],
      by decide, by decide⟩)

/-- Claim C7 counterexample: an open (not settled) record due in the year
produces a row in the source's series, while the claim's settled-by-
settlement-month series is empty. -/
theorem C7_counterexample :
    valores_periodo 2025 [contaFutura] ≠ valores_periodo_claim 2025 [contaFutura] := by
  simp [valores_periodo, valores_periodo_claim, groupBySum, validPairs, sortedKeys,
    insertKey, keySum, dueYear, dueMonth, quitYear, quitMonth, isQuitado, contaFutura,
    lowerStr, lowerChar, Date.toPeriod]

/-- Claim C7 amended: the payments-by-period series consists of the records
of any status whose due date falls in the analysis year, grouped by calendar
month of the due date, summing `valor_documento` without subtracting
discount, one row per month holding at least one such record, sorted
ascending. -/
theorem C7_valores_periodo_amended : ∀ (ano : Int) (df : List Record),
    ((valores_periodo ano df).map Prod.fst).Sorted (· < ·) ∧
    (∀ k : Int, (∃ e ∈ valores_periodo ano df, e.1 = k) ↔
      ∃ r ∈ df, dueYear r = some ano ∧ dueMonth r = some k) ∧
    (∀ e ∈ valores_periodo ano df, e.2 = valoresPeriodoSpec ano e.1 df) := by
  intro ano df
  refine ⟨?_, ?_, ?_⟩
  · unfold valores_periodo
    rw [keys_groupBySum]
    exact sorted_sortedKeys _
  · intro k
    have hmm : (∃ e ∈ valores_periodo ano df, e.1 = k) ↔
        k ∈ (valores_periodo ano df).map Prod.fst := by
      rw [List.mem_map]
    rw [hmm]
    unfold valores_periodo
    rw [keys_groupBySum, mem_sortedKeys, mem_keys_validPairs]
    constructor
    · rintro ⟨r, hr, hrk⟩
      rw [List.mem_filter] at hr
      refine ⟨r, hr.1, ?_, hrk⟩
      simpa using hr.2
    · rintro ⟨r, hr, hy, hm⟩
      exact ⟨r, List.mem_filter.mpr ⟨hr, by simp [hy]⟩, hm⟩
  · intro e he
    unfold valores_periodo at he
    have h2 := snd_of_mem_groupBySum _ e he
    rw [h2, keySum_map dueMonth Record.valor_documento, List.filter_filter]
    unfold valoresPeriodoSpec
    congr 1
    congr 1
    apply List.filter_congr
    intro r _
    exact Bool.and_comm _ _

/-- Witness for C7: with one record due in December 2025, the series has a
row for that period. -/
theorem C7_witness :
    ∃ e ∈ valores_periodo 2025 [contaFutura],
      e.1 = Date.toPeriod ⟨2025, 12, 31⟩ :=
  ((C7_valores_periodo_amended 2025 [contaFutura]).2.1
      (Date.toPeriod ⟨2025, 12, 31⟩)).mpr
    ⟨contaFutura, by simp, by decide, by decide⟩

/-- `dias_para_vencimento` (source line 407): whole days between today and
the due date. -/
def dias_para_vencimento (hoje venc : Date) : Int :=
  venc.toDayNumber - hoje.toDayNumber

/-- `ordem_faixas` (source line 428): the fixed bucket display order. -/
def ordem_faixas : List String :=
  ["Vencidas/Hoje", "Até 7 dias", "8 a 15 dias", "16 a 30 dias", "Mais de 30 dias"]

/-- `df_aberto_prazo` (source lines 401-422): the open records with known due
date, selected into a `.copy()` and extended — on the copy — with the two
computed columns `dias_para_vencimento` and `faixa_vencimento`. -/
def df_aberto_prazo (hoje : Date) (dfg : List Record) :
    List (Record × Int × String) :=
  dfg.filterMap (fun r =>
    if isAberto r then
      match r.data_vencimento with
      | some d =>
        some (r, dias_para_vencimento hoje d,
          categorizar_prazo (dias_para_vencimento hoje d))
      | none => none
    else none)

/-- `df_prazo` (source lines 425-430): balance summed per bucket, rows in the
fixed bucket order (the categorical sort), buckets with no record absent
(groupby yields only keys that occur). -/
def df_prazo (hoje : Date) (dfg : List Record) : List (String × ℚ) :=
  (ordem_faixas.filter
      (fun f => (df_aberto_prazo hoje dfg).any (fun x => x.2.2 == f))).map
    (fun f => (f, (((df_aberto_prazo hoje dfg).filter
      (fun x => x.2.2 == f)).map (fun x => x.1.valor_saldo)).sum))

/-- The whole derived-view pass of the dashboard over the loaded table.
Every step reads the table through a boolean-mask selection (which builds a
new frame) or an explicit `.copy()` (source lines 132, 325, 404); the
in-place column writes of the source (lines 407, 422) target those copies.
The pass therefore returns its outputs alongside the loaded table it read
from. -/
def run_all_views (hoje : Date) (ano : Int) (mes : Option Int)
    (status_sel tipo_sel : List String) (df : List Record) :
    (List Record × ℚ × ℚ × List Record × ℚ ×
      List (Int × ℚ × ℚ) × List (String × ℚ)) × List Record :=
  let dfg := df_filtrado_global mes status_sel tipo_sel df
  let total := get_valor_total_contas_a_pagar dfg
  let aberto := get_valor_total_contas_a_pagar_aberto dfg
  let vencidas := df_vencidas_em_aberto hoje dfg
  let pct := percentual_vencido hoje dfg
  let comparativo := df_comparativo ano dfg
  let prazo := df_prazo hoje dfg
  ((dfg, total, aberto, vencidas, pct, comparativo, prazo), df)

/-- Claim C9: no view computation mutates the loaded table: the full pass of
derived views (global filter, totals, overdue view and percentage,
forecast-vs-actual comparison, term-bucket distribution) returns the loaded
table exactly as it was read. -/
theorem C9_views_leave_table_unchanged :
    ∀ (hoje : Date) (ano : Int) (mes : Option Int)
      (status_sel tipo_sel : List String) (df : List Record),
      (run_all_views hoje ano mes status_sel tipo_sel df).2 = df := by
  intro hoje ano mes ss ts df
  rfl
